import Mathlib

/-!
Verification of the Garmin recovery-score demo repository.

The Python sources are shallowly embedded here:
* `src/Garmin/Garmin_info.py` — the training-status evaluator and its two
  HTTP handlers (POST and GET `/training-status`).
* `src/Garmin/front_end_data_display/nice_front_end_of_data.py` — the
  fitness-data lookup endpoint and the HTML visualization endpoint.
* `src/Garmin/Garmin_data/data_creation/generate_data.py` — the synthetic
  data generator.

Python `float` scores are modelled as rationals (`ℚ`): every comparison in
the sources is against a decimal constant, and all data literals are exact
decimals, so the control flow is faithfully reproduced.  A raised
`HTTPException` is modelled as the `Except.error` branch carrying the
status code and detail string.
-/

set_option maxRecDepth 100000

namespace Garmin

/-- Request model from `Garmin_info.py`: one field `recovery_score: float`. -/
structure RecoveryScoreRequest where
  recovery_score : ℚ
  deriving DecidableEq

/-- Response model `TrainingResponse` from `Garmin_info.py`, with its three
fields in declaration order: `training_status: str`, `recovery_hours: float`,
`message: str`. -/
structure TrainingResponse where
  training_status : String
  recovery_hours : ℚ
  message : String
  deriving DecidableEq

/-- A raised FastAPI `HTTPException`: status code plus detail message. -/
structure HttpError where
  status_code : Nat
  detail : String
  deriving DecidableEq

/-- The POST `/training-status` handler `get_training_status` from
`Garmin_info.py`: reject scores outside `[0, 72]` with a 400 error, classify
scores strictly above 20 as `cancelled`, all others as `continue`, and echo
the score back in `recovery_hours`. -/
def get_training_status (request : RecoveryScoreRequest) :
    Except HttpError TrainingResponse :=
  if request.recovery_score < 0 ∨ request.recovery_score > 72 then
    .error ⟨400, "Recovery score must be between 0 and 72 hours"⟩
  else if request.recovery_score > 20 then
    .ok ⟨"cancelled", request.recovery_score,
         "No training tomorrow, all training will be cancelled."⟩
  else
    .ok ⟨"continue", request.recovery_score,
         "Training will continue as scheduled."⟩

/-- The GET `/training-status` handler `get_training_status_get` from
`Garmin_info.py`: it builds a `RecoveryScoreRequest` from the query
parameter and delegates to the POST handler. -/
def get_training_status_get (recovery_score : ℚ) :
    Except HttpError TrainingResponse :=
  get_training_status { recovery_score := recovery_score }

/-- C1: on the valid range, `cancelled` iff the score exceeds 20, and
`continue` iff it is in `[0, 20]`; the boundary 20 classifies as
`continue`. -/
theorem training_status_threshold (s : ℚ) (h0 : 0 ≤ s) (h72 : s ≤ 72)
    (r : TrainingResponse)
    (hr : get_training_status { recovery_score := s } = .ok r) :
    (r.training_status = "cancelled" ↔ s > 20) ∧
    (r.training_status = "continue" ↔ 0 ≤ s ∧ s ≤ 20) := by
  unfold get_training_status at hr
  rcases lt_or_le 20 s with h20 | h20
  · rw [if_neg (by push_neg; exact ⟨h0, h72⟩), if_pos h20] at hr
    cases hr
    refine ⟨by simpa using h20, ?_⟩
    simp only [String.reduceEq, false_iff, not_and, not_le]
    exact fun _ => h20
  · rw [if_neg (by push_neg; exact ⟨h0, h72⟩), if_neg (by simpa using h20)] at hr
    cases hr
    constructor
    · simp only [String.reduceEq, false_iff, not_lt]
      exact h20
    · simpa using ⟨h0, h20⟩

/-- Witness for C1 at the boundary score 20: the result classifies as
`continue`, not `cancelled`. -/
theorem training_status_threshold_witness :
    (TrainingResponse.mk "continue" 20 "Training will continue as scheduled."
        |>.training_status) = "continue" ∧
    ¬ ((20 : ℚ) > 20) := by
  have h := training_status_threshold 20 (by norm_num) (by norm_num)
    ⟨"continue", 20, "Training will continue as scheduled."⟩ rfl
  exact ⟨h.2.mpr ⟨by norm_num, le_refl _⟩, (not_iff_not.mpr h.1).mp (by decide)⟩

/-- C2: the evaluator fails iff the score is outside `[0, 72]`; the failure
is exactly the 400 `InvalidRangeError`, and inside the range a result is
always returned. -/
theorem training_status_range_validation (s : ℚ) :
    ((∃ e, get_training_status { recovery_score := s } = .error e) ↔
      (s < 0 ∨ s > 72)) ∧
    (s < 0 ∨ s > 72 →
      get_training_status { recovery_score := s } =
        .error ⟨400, "Recovery score must be between 0 and 72 hours"⟩) ∧
    (0 ≤ s → s ≤ 72 →
      ∃ r, get_training_status { recovery_score := s } = .ok r) := by
  unfold get_training_status
  by_cases hout : s < 0 ∨ s > 72
  · rw [if_pos hout]
    exact ⟨⟨fun _ => hout, fun _ => ⟨_, rfl⟩⟩, fun _ => rfl,
      fun h0 h72 => absurd hout (by push_neg; exact ⟨h0, h72⟩)⟩
  · rw [if_neg hout]
    refine ⟨⟨?_, fun h => absurd h hout⟩, fun h => absurd h hout, fun _ _ => ?_⟩
    · rintro ⟨e, he⟩
      split at he <;> exact Except.noConfusion he
    · split <;> exact ⟨_, rfl⟩

/-- Witness for C2 at the out-of-range score 73 and the in-range score 5. -/
theorem training_status_range_validation_witness :
    get_training_status { recovery_score := 73 } =
      .error ⟨400, "Recovery score must be between 0 and 72 hours"⟩ ∧
    ∃ r, get_training_status { recovery_score := 5 } = .ok r :=
  ⟨(training_status_range_validation 73).2.1 (by norm_num),
   (training_status_range_validation 5).2.2 (by norm_num) (by norm_num)⟩

/-- C3: for every valid score, the `recovery_hours` field of the result
echoes the input exactly. -/
theorem training_status_echo (s : ℚ) (h0 : 0 ≤ s) (h72 : s ≤ 72)
    (r : TrainingResponse)
    (hr : get_training_status { recovery_score := s } = .ok r) :
    r.recovery_hours = s := by
  unfold get_training_status at hr
  rw [if_neg (by push_neg; exact ⟨h0, h72⟩)] at hr
  split at hr <;> · cases hr; rfl

/-- Witness for C3 at score 5. -/
theorem training_status_echo_witness :
    (TrainingResponse.mk "continue" 5 "Training will continue as scheduled."
      |>.recovery_hours) = 5 :=
  training_status_echo 5 (by norm_num) (by norm_num)
    ⟨"continue", 5, "Training will continue as scheduled."⟩ rfl

/-- C4: the GET handler behaves exactly like the POST handler on the same
score, both on success and on failure. -/
theorem get_post_agree (s : ℚ) :
    get_training_status_get s = get_training_status { recovery_score := s } := rfl

/-- A JSON scalar value, as serialized by pydantic into the HTTP body. -/
inductive JsonValue where
  | str : String → JsonValue
  | num : ℚ → JsonValue
  deriving DecidableEq

/-- The JSON object serialized by pydantic from a `TrainingResponse`,
as key/value pairs in field declaration order (`Garmin_info.py`,
class `TrainingResponse`). -/
def TrainingResponse.toPairs (r : TrainingResponse) : List (String × JsonValue) :=
  [("training_status", .str r.training_status),
   ("recovery_hours", .num r.recovery_hours),
   ("message", .str r.message)]

/-- C5: the advisory message is exactly the cancellation text when the score
exceeds 20, and exactly the continuation text when it is in `[0, 20]`. -/
theorem training_status_message (s : ℚ) (h0 : 0 ≤ s) (h72 : s ≤ 72)
    (r : TrainingResponse)
    (hr : get_training_status { recovery_score := s } = .ok r) :
    (s > 20 → r.message = "No training tomorrow, all training will be cancelled.") ∧
    (0 ≤ s ∧ s ≤ 20 → r.message = "Training will continue as scheduled.") := by
  unfold get_training_status at hr
  rw [if_neg (by push_neg; exact ⟨h0, h72⟩)] at hr
  split at hr
  · next hgt =>
    cases hr
    exact ⟨fun _ => rfl, fun hc => absurd hgt (not_lt.mpr hc.2)⟩
  · next hn =>
    cases hr
    exact ⟨fun hgt => absurd hgt hn, fun _ => rfl⟩

/-- Witness for C5 at scores 25 (cancellation message) and 5 (continuation
message). -/
theorem training_status_message_witness :
    (TrainingResponse.mk "cancelled" 25
        "No training tomorrow, all training will be cancelled." |>.message) =
      "No training tomorrow, all training will be cancelled." ∧
    (TrainingResponse.mk "continue" 5
        "Training will continue as scheduled." |>.message) =
      "Training will continue as scheduled." :=
  ⟨(training_status_message 25 (by norm_num) (by norm_num)
      ⟨"cancelled", 25, "No training tomorrow, all training will be cancelled."⟩
      rfl).1 (by norm_num),
   (training_status_message 5 (by norm_num) (by norm_num)
      ⟨"continue", 5, "Training will continue as scheduled."⟩
      rfl).2 ⟨by norm_num, by norm_num⟩⟩

/-- C6 counterexample: the serialized success response at score 5 has keys
`training_status`, `recovery_hours`, `message` — the first field is not
named `status` as the claim states. -/
theorem response_fields_counterexample :
    get_training_status { recovery_score := 5 } =
      .ok ⟨"continue", 5, "Training will continue as scheduled."⟩ ∧
    (TrainingResponse.mk "continue" 5 "Training will continue as scheduled."
        |>.toPairs.map Prod.fst) =
      ["training_status", "recovery_hours", "message"] ∧
    "status" ∉
      (TrainingResponse.mk "continue" 5 "Training will continue as scheduled."
        |>.toPairs.map Prod.fst) :=
  ⟨rfl, rfl, by decide⟩

/-- C6 (amended): every successful response serializes to exactly the three
fields `training_status` (a string, always `continue` or `cancelled`),
`recovery_hours` (the score), and `message` (a string). -/
theorem response_fields (s : ℚ) (r : TrainingResponse)
    (hr : get_training_status { recovery_score := s } = .ok r) :
    r.toPairs = [("training_status", .str r.training_status),
                 ("recovery_hours", .num r.recovery_hours),
                 ("message", .str r.message)] ∧
    r.toPairs.map Prod.fst = ["training_status", "recovery_hours", "message"] ∧
    (r.training_status = "continue" ∨ r.training_status = "cancelled") := by
  refine ⟨rfl, rfl, ?_⟩
  unfold get_training_status at hr
  split at hr
  · exact Except.noConfusion hr
  · split at hr <;> · cases hr; simp

/-- Witness for C6 (amended) at score 5. -/
theorem response_fields_witness :
    ((TrainingResponse.mk "continue" 5 "Training will continue as scheduled."
        |>.toPairs.map Prod.fst) =
      ["training_status", "recovery_hours", "message"]) ∧
    ("continue" = "continue" ∨ "continue" = "cancelled") := by
  have h := response_fields 5
    ⟨"continue", 5, "Training will continue as scheduled."⟩ rfl
  exact ⟨h.2.1, h.2.2⟩

/-- Explicit state-passing form of the POST handler: the module-level state
visible to `get_training_status` (of any type `α`) is threaded through the
call.  No statement of the Python body reads or writes anything outside the
request, so the translation returns the state unchanged and the result
depends only on the request. -/
def get_training_status_run {α : Type} (g : α) (request : RecoveryScoreRequest) :
    Except HttpError TrainingResponse × α :=
  (get_training_status request, g)

/-- C7: the handler is deterministic and side-effect free — the outcome is
the same across invocations and independent of the outside state, and the
outside state is returned unmodified. -/
theorem training_status_pure {α : Type} (g g' : α) (s : ℚ) :
    (get_training_status_run g { recovery_score := s }).1 =
      (get_training_status_run g' { recovery_score := s }).1 ∧
    (get_training_status_run g { recovery_score := s }).2 = g :=
  ⟨rfl, rfl⟩

/-! ### `front_end_data_display/nice_front_end_of_data.py` -/

/-- The `FitnessMetrics` pydantic model: recovery score, body battery and
sleep hours are floats (modelled as `ℚ`), stress level is an int. -/
structure FitnessMetrics where
  recovery_score : ℚ
  body_battery : ℚ
  sleep_hours : ℚ
  stress_level : ℤ
  deriving DecidableEq

/-- The `FitnessDataResponse` pydantic model: a date string plus metrics. -/
structure FitnessDataResponse where
  date : String
  data : FitnessMetrics
  deriving DecidableEq

/-- The module-level `SAMPLE_DATA` dictionary, as an insertion-ordered
association list (Python dicts preserve insertion order, which the code
relies on for `list(SAMPLE_DATA.keys())[0]`). -/
def SAMPLE_DATA : List (String × FitnessMetrics) :=
  [("2023-01-01", ⟨9.1, 71.8, 8.1, 26⟩),
   ("2023-01-02", ⟨28.7, 75.4, 7.7, 22⟩),
   ("2023-01-03", ⟨56.9, 2.2, 7.6, 31⟩),
   ("2023-01-04", ⟨15.1, 52.4, 3.7, 49⟩),
   ("2023-01-05", ⟨20.6, 7.1, 4.5, 13⟩),
   ("2023-01-06", ⟨5.3, 12.2, 5.4, 78⟩),
   ("2023-01-07", ⟨65.6, 32.5, 5.8, 70⟩)]

/-- On a lawful `BEq`, association-list lookup misses exactly when the key is
absent from the key column. -/
theorem lookup_eq_none_iff {α β : Type} [BEq α] [LawfulBEq α]
    (l : List (α × β)) (a : α) :
    l.lookup a = none ↔ a ∉ l.map Prod.fst := by
  induction l with
  | nil => simp
  | cons p t ih =>
    obtain ⟨k, v⟩ := p
    by_cases h : a = k
    · subst h; simp [List.lookup]
    · simp [List.lookup, beq_false_of_ne h, h, ih]

/-- A hit in association-list lookup means the key is present. -/
theorem mem_of_lookup_eq_some {α β : Type} [BEq α] [LawfulBEq α]
    {l : List (α × β)} {a : α} {b : β} (h : l.lookup a = some b) :
    a ∈ l.map Prod.fst := by
  by_contra hc
  rw [(lookup_eq_none_iff l a).mpr hc] at h
  exact Option.noConfusion h

/-- The GET `/api/data/{date}` handler `get_data_for_date`, with the
module-level `SAMPLE_DATA` dictionary passed as explicit state `g`: a miss
raises a 404 `HTTPException`, a hit returns the date together with the
stored metrics; the state is handed back so that (non-)mutation is
visible. -/
def get_data_for_date (g : List (String × FitnessMetrics)) (date : String) :
    Except HttpError FitnessDataResponse × List (String × FitnessMetrics) :=
  match g.lookup date with
  | none => (.error ⟨404, "No data found for date " ++ date⟩, g)
  | some m => (.ok ⟨date, m⟩, g)

/-- C8: the lookup endpoint 404s exactly on dates absent from `SAMPLE_DATA`,
returns the stored record unchanged on present dates, and never modifies
`SAMPLE_DATA`. -/
theorem data_for_date_spec (d : String) :
    ((∃ e, (get_data_for_date SAMPLE_DATA d).1 = .error e) ↔
       d ∉ SAMPLE_DATA.map Prod.fst) ∧
    (d ∉ SAMPLE_DATA.map Prod.fst →
       (get_data_for_date SAMPLE_DATA d).1 =
         .error ⟨404, "No data found for date " ++ d⟩) ∧
    (∀ m, SAMPLE_DATA.lookup d = some m →
       (get_data_for_date SAMPLE_DATA d).1 = .ok ⟨d, m⟩) ∧
    (get_data_for_date SAMPLE_DATA d).2 = SAMPLE_DATA := by
  have key := lookup_eq_none_iff SAMPLE_DATA d
  cases h : SAMPLE_DATA.lookup d with
  | none =>
    have hmem : d ∉ SAMPLE_DATA.map Prod.fst := key.mp h
    have heq : get_data_for_date SAMPLE_DATA d =
        (.error ⟨404, "No data found for date " ++ d⟩, SAMPLE_DATA) := by
      unfold get_data_for_date
      rw [h]
    rw [heq]
    refine ⟨⟨fun _ => hmem, fun _ => ⟨_, rfl⟩⟩, fun _ => rfl, ?_, rfl⟩
    intro m hm
    exact Option.noConfusion hm
  | some m =>
    have hmem : d ∈ SAMPLE_DATA.map Prod.fst := mem_of_lookup_eq_some h
    have heq : get_data_for_date SAMPLE_DATA d = (.ok ⟨d, m⟩, SAMPLE_DATA) := by
      unfold get_data_for_date
      rw [h]
    rw [heq]
    refine ⟨⟨?_, fun hc => absurd hmem hc⟩, fun hc => absurd hmem hc, ?_, rfl⟩
    · rintro ⟨e, he⟩
      exact Except.noConfusion he
    · intro m' hm'
      cases hm'
      rfl

/-- Witness for C8: a missing date 404s, a present date returns its record,
and the state comes back unchanged. -/
theorem data_for_date_spec_witness :
    (get_data_for_date SAMPLE_DATA "1999-01-01").1 =
      .error ⟨404, "No data found for date " ++ "1999-01-01"⟩ ∧
    (get_data_for_date SAMPLE_DATA "2023-01-03").1 =
      .ok ⟨"2023-01-03", ⟨56.9, 2.2, 7.6, 31⟩⟩ ∧
    (get_data_for_date SAMPLE_DATA "1999-01-01").2 = SAMPLE_DATA :=
  ⟨(data_for_date_spec "1999-01-01").2.1 (by decide),
   (data_for_date_spec "2023-01-03").2.2.1 ⟨56.9, 2.2, 7.6, 31⟩
     (by simp [SAMPLE_DATA, List.lookup]),
   (data_for_date_spec "1999-01-01").2.2.2⟩

/-- Split a character list on `-` separators, mirroring how
`datetime.strptime(date, "%Y-%m-%d")` tokenizes its input. -/
def splitDash : List Char → List (List Char)
  | [] => [[]]
  | c :: cs =>
    if c = '-' then [] :: splitDash cs
    else
      match splitDash cs with
      | [] => [[c]]
      | g :: gs => (c :: g) :: gs

/-- Read a non-empty all-digit character group as a number. -/
def digitsToNat (cs : List Char) : Option Nat :=
  if cs ≠ [] ∧ cs.all Char.isDigit then
    some (cs.foldl (fun n c => 10 * n + (c.toNat - 48)) 0)
  else none

/-- Model of `datetime.strptime(date, "%Y-%m-%d")`: three dash-separated
digit groups with a plausible month and day, else a `ValueError`
(returned as `none`). -/
def parseYmd (s : String) : Option (Nat × Nat × Nat) :=
  match splitDash s.toList with
  | [ys, ms, ds] =>
    match digitsToNat ys, digitsToNat ms, digitsToNat ds with
    | some y, some mo, some da =>
      if 1 ≤ mo ∧ mo ≤ 12 ∧ 1 ≤ da ∧ da ≤ 31 then some (y, mo, da) else none
    | _, _, _ => none
  | _ => none

/-- English month names used by `strftime("%B %d, %Y")`. -/
def monthName : Nat → String
  | 1 => "January"
  | 2 => "February"
  | 3 => "March"
  | 4 => "April"
  | 5 => "May"
  | 6 => "June"
  | 7 => "July"
  | 8 => "August"
  | 9 => "September"
  | 10 => "October"
  | 11 => "November"
  | 12 => "December"
  | _ => ""

/-- Zero-pad a number to two digits, as `%d` does. -/
def pad2 (n : Nat) : String :=
  if n < 10 then "0" ++ toString n else toString n

/-- `strftime("%B %d, %Y")` applied to a parsed date. -/
def displayDate (y mo da : Nat) : String :=
  monthName mo ++ " " ++ pad2 da ++ ", " ++ toString y

/-- The dynamic content of the HTML page built by `get_visualization`: the
date actually rendered, its metrics, and the formatted display date.  The
static HTML template around these values carries no further state. -/
structure RenderedPage where
  date : String
  data : FitnessMetrics
  display_date : String
  deriving DecidableEq

/-- The date actually rendered: the requested one if present in
`SAMPLE_DATA`, else `list(SAMPLE_DATA.keys())[0]` (the first key). -/
def effective_date (qdate : String) : String :=
  if (SAMPLE_DATA.lookup qdate).isSome then qdate
  else (SAMPLE_DATA.map Prod.fst).headD ""

/-- The GET `/` handler `get_visualization`: swap an unknown date for the
first sample key, look the date up, format it with `strptime`/`strftime`
(a `ValueError` there would escape as an error), and render the page. -/
def get_visualization (qdate : String) : Except String RenderedPage :=
  match SAMPLE_DATA.lookup (effective_date qdate) with
  | none => .error "KeyError"
  | some data =>
    match parseYmd (effective_date qdate) with
    | none => .error "ValueError: time data does not match format Y-m-d"
    | some ymd => .ok ⟨effective_date qdate, data, displayDate ymd.1 ymd.2.1 ymd.2.2⟩

/-- On a date absent from `SAMPLE_DATA`, the visualization silently renders
the first sample day instead. -/
theorem visualization_fallback_eq (d : String)
    (hl : SAMPLE_DATA.lookup d = none) :
    get_visualization d =
      .ok ⟨"2023-01-01", ⟨9.1, 71.8, 8.1, 26⟩, "January 01, 2023"⟩ := by
  have he : effective_date d = "2023-01-01" := by
    unfold effective_date
    rw [hl]
    rfl
  unfold get_visualization
  rw [he]
  rfl

/-- C9: the visualization endpoint never fails — every request renders some
page — and when the requested date is not a `SAMPLE_DATA` key it falls back
to the first key `2023-01-01` and renders that day's data. -/
theorem visualization_never_fails (d : String) :
    (∃ page, get_visualization d = .ok page) ∧
    (SAMPLE_DATA.lookup d = none →
      get_visualization d =
        .ok ⟨"2023-01-01", ⟨9.1, 71.8, 8.1, 26⟩, "January 01, 2023"⟩) := by
  refine ⟨?_, visualization_fallback_eq d⟩
  cases h : SAMPLE_DATA.lookup d with
  | none => exact ⟨_, visualization_fallback_eq d h⟩
  | some m =>
    have hm := mem_of_lookup_eq_some h
    simp only [SAMPLE_DATA, List.map_cons, List.map_nil, List.mem_cons,
      List.not_mem_nil, or_false] at hm
    rcases hm with rfl | rfl | rfl | rfl | rfl | rfl | rfl <;> exact ⟨_, rfl⟩

/-- Witness for C9 at the absent date `1999-12-31`: the page rendered is the
one for `2023-01-01`. -/
theorem visualization_never_fails_witness :
    get_visualization "1999-12-31" =
      .ok ⟨"2023-01-01", ⟨9.1, 71.8, 8.1, 26⟩, "January 01, 2023"⟩ :=
  (visualization_never_fails "1999-12-31").2 rfl

/-! ### `Garmin_data/data_creation/generate_data.py` -/

/-- A calendar date as Python's `datetime.date` holds it. -/
structure PyDate where
  year : Nat
  month : Nat
  day : Nat
  deriving DecidableEq

/-- Gregorian leap-year rule used by `datetime.date` arithmetic. -/
def isLeap (y : Nat) : Bool :=
  (y % 4 == 0 && y % 100 != 0) || y % 400 == 0

/-- Days in a month under the Gregorian calendar. -/
def daysInMonth (y m : Nat) : Nat :=
  if m = 2 then (if isLeap y then 29 else 28)
  else if m = 4 ∨ m = 6 ∨ m = 9 ∨ m = 11 then 30
  else 31

/-- `current_day + timedelta(days=1)`. -/
def nextDay (d : PyDate) : PyDate :=
  if d.day < daysInMonth d.year d.month then ⟨d.year, d.month, d.day + 1⟩
  else if d.month < 12 then ⟨d.year, d.month + 1, 1⟩
  else ⟨d.year + 1, 1, 1⟩

/-- `date` comparison `current_day <= end_date` (lexicographic on
year, month, day). -/
def dateLe (a b : PyDate) : Bool :=
  a.year < b.year ||
    (a.year == b.year &&
      (a.month < b.month || (a.month == b.month && a.day ≤ b.day)))

/-- Zero-pad a year to four digits, as `%Y` does. -/
def pad4 (n : Nat) : String :=
  if n < 10 then "000" ++ toString n
  else if n < 100 then "00" ++ toString n
  else if n < 1000 then "0" ++ toString n
  else toString n

/-- `current_day.strftime("%Y-%m-%d")`. -/
def PyDate.toStr (d : PyDate) : String :=
  pad4 d.year ++ "-" ++ pad2 d.month ++ "-" ++ pad2 d.day

/-- Python's `round(x, 1)`: round to one decimal place.  Modelled with
round-half-up on rationals; Python uses round-half-to-even, which differs
only on exact ties and never moves a value past an integer bound. -/
def round1 (q : ℚ) : ℚ :=
  ((round (q * 10) : ℤ) : ℚ) / 10

/-- The generator's `while current_day <= end_date` loop.  The calls to
`random.uniform` and `random.randint` are modelled by oracle streams
`u1`, `u2`, `u3`, `sOrc` indexed by the iteration count `i`; `fuel` bounds
the unrolling and is chosen larger than the number of iterations the date
condition allows, so the loop always exits through the condition. -/
def genLoop (u1 u2 u3 : Nat → ℚ) (sOrc : Nat → ℤ) (endD : PyDate) :
    Nat → PyDate → Nat → List (String × FitnessMetrics)
  | 0, _, _ => []
  | fuel + 1, cur, i =>
    if dateLe cur endD then
      (cur.toStr,
        ⟨round1 (u1 i), round1 (u2 i), round1 (u3 i), sOrc i⟩) ::
        genLoop u1 u2 u3 sOrc endD fuel (nextDay cur) (i + 1)
    else []

/-- `generate_five_days_of_garmin_data` from `generate_data.py`: iterate
from `date(2023, 1, 1)` up to and including `date(2023, 3, 1)`, drawing
`round(uniform(0, 72), 1)`, `round(uniform(0, 100), 1)`,
`round(uniform(3, 9), 1)` and `randint(0, 100)` for each day. -/
def generate_five_days_of_garmin_data (u1 u2 u3 : Nat → ℚ)
    (sOrc : Nat → ℤ) : List (String × FitnessMetrics) :=
  genLoop u1 u2 u3 sOrc ⟨2023, 3, 1⟩ 1000 ⟨2023, 1, 1⟩ 0

/-- One key per day from 2023-01-01 onwards, sixty of them — the key set
the claim describes. -/
def expected_keys : List String :=
  (List.range 60).map (fun i => (Nat.iterate nextDay i ⟨2023, 1, 1⟩).toStr)

/-- Rounding to one decimal keeps a rational between any integer bounds
that contained it. -/
theorem round1_bounds (a b : ℤ) (q : ℚ) (ha : (a : ℚ) ≤ q)
    (hb : q ≤ (b : ℚ)) :
    (a : ℚ) ≤ round1 q ∧ round1 q ≤ (b : ℚ) := by
  have hla : ((10 * a : ℤ) : ℚ) ≤ q * 10 := by push_cast; linarith
  have hlb : q * 10 ≤ ((10 * b : ℤ) : ℚ) := by push_cast; linarith
  have h1 : (10 * a : ℤ) ≤ round (q * 10) := by
    calc (10 * a : ℤ) = round (((10 * a : ℤ) : ℚ)) := (round_intCast _).symm
      _ ≤ round (q * 10) := by
          rw [round_eq, round_eq]
          exact Int.floor_le_floor (by linarith)
  have h2 : round (q * 10) ≤ (10 * b : ℤ) := by
    calc round (q * 10) ≤ round (((10 * b : ℤ) : ℚ)) := by
          rw [round_eq, round_eq]
          exact Int.floor_le_floor (by linarith)
      _ = (10 * b : ℤ) := round_intCast _
  constructor
  · rw [round1, le_div_iff₀ (by norm_num : (0 : ℚ) < 10)]
    calc (a : ℚ) * 10 = ((10 * a : ℤ) : ℚ) := by push_cast; ring
      _ ≤ ((round (q * 10) : ℤ) : ℚ) := by exact_mod_cast h1
  · rw [round1, div_le_iff₀ (by norm_num : (0 : ℚ) < 10)]
    calc ((round (q * 10) : ℤ) : ℚ) ≤ ((10 * b : ℤ) : ℚ) := by exact_mod_cast h2
      _ = (b : ℚ) * 10 := by push_cast; ring

/-- The key column produced by the loop does not depend on the random
oracles or on the draw index. -/
theorem genLoop_map_fst (u1 u2 u3 v1 v2 v3 : Nat → ℚ) (s t : Nat → ℤ)
    (endD : PyDate) :
    ∀ fuel cur i j,
      (genLoop u1 u2 u3 s endD fuel cur i).map Prod.fst =
        (genLoop v1 v2 v3 t endD fuel cur j).map Prod.fst := by
  intro fuel
  induction fuel with
  | zero => intro cur i j; rfl
  | succ n ih =>
    intro cur i j
    by_cases h : dateLe cur endD = true
    · simp only [genLoop, if_pos h, List.map_cons, List.cons.injEq, true_and]
      exact ih (nextDay cur) (i + 1) (j + 1)
    · simp only [genLoop, if_neg h]

/-- Every metrics record produced by the loop respects the draw bounds. -/
theorem genLoop_bounds (u1 u2 u3 : Nat → ℚ) (sOrc : Nat → ℤ) (endD : PyDate)
    (h1 : ∀ i, 0 ≤ u1 i ∧ u1 i ≤ 72)
    (h2 : ∀ i, 0 ≤ u2 i ∧ u2 i ≤ 100)
    (h3 : ∀ i, 3 ≤ u3 i ∧ u3 i ≤ 9)
    (h4 : ∀ i, 0 ≤ sOrc i ∧ sOrc i ≤ 100) :
    ∀ fuel cur i p, p ∈ genLoop u1 u2 u3 sOrc endD fuel cur i →
      (0 ≤ p.2.recovery_score ∧ p.2.recovery_score ≤ 72) ∧
      (0 ≤ p.2.body_battery ∧ p.2.body_battery ≤ 100) ∧
      (3 ≤ p.2.sleep_hours ∧ p.2.sleep_hours ≤ 9) ∧
      (0 ≤ p.2.stress_level ∧ p.2.stress_level ≤ 100) := by
  intro fuel
  induction fuel with
  | zero => intro cur i p hp; simp [genLoop] at hp
  | succ n ih =>
    intro cur i p hp
    by_cases h : dateLe cur endD = true
    · rw [genLoop, if_pos h] at hp
      rcases List.mem_cons.mp hp with rfl | hmem
      · have b1 := round1_bounds 0 72 (u1 i) (by exact_mod_cast (h1 i).1)
          (by exact_mod_cast (h1 i).2)
        have b2 := round1_bounds 0 100 (u2 i) (by exact_mod_cast (h2 i).1)
          (by exact_mod_cast (h2 i).2)
        have b3 := round1_bounds 3 9 (u3 i) (by exact_mod_cast (h3 i).1)
          (by exact_mod_cast (h3 i).2)
        refine ⟨⟨?_, ?_⟩, ⟨?_, ?_⟩, ⟨?_, ?_⟩, h4 i⟩ <;> push_cast at b1 b2 b3 <;>
          first
          | exact b1.1 | exact b1.2 | exact b2.1 | exact b2.2
          | exact b3.1 | exact b3.2
      · exact ih (nextDay cur) (i + 1) p hmem
    · rw [genLoop, if_neg h] at hp
      simp at hp

/-- C10: the generator yields exactly one record per day from 2023-01-01
through 2023-03-01 — sixty keys, not five — and every record's metrics lie
in the draw ranges: recovery in `[0, 72]`, body battery in `[0, 100]`,
sleep in `[3, 9]`, stress in `{0, …, 100}`. -/
theorem generate_data_spec (u1 u2 u3 : Nat → ℚ) (sOrc : Nat → ℤ)
    (h1 : ∀ i, 0 ≤ u1 i ∧ u1 i ≤ 72)
    (h2 : ∀ i, 0 ≤ u2 i ∧ u2 i ≤ 100)
    (h3 : ∀ i, 3 ≤ u3 i ∧ u3 i ≤ 9)
    (h4 : ∀ i, 0 ≤ sOrc i ∧ sOrc i ≤ 100) :
    (generate_five_days_of_garmin_data u1 u2 u3 sOrc).map Prod.fst =
      expected_keys ∧
    expected_keys.length = 60 ∧
    expected_keys.headD "" = "2023-01-01" ∧
    expected_keys.getLast? = some "2023-03-01" ∧
    expected_keys.Nodup ∧
    ∀ p ∈ generate_five_days_of_garmin_data u1 u2 u3 sOrc,
      (0 ≤ p.2.recovery_score ∧ p.2.recovery_score ≤ 72) ∧
      (0 ≤ p.2.body_battery ∧ p.2.body_battery ≤ 100) ∧
      (3 ≤ p.2.sleep_hours ∧ p.2.sleep_hours ≤ 9) ∧
      (0 ≤ p.2.stress_level ∧ p.2.stress_level ≤ 100) := by
  refine ⟨?_, by decide, by decide, by decide, by decide, ?_⟩
  · exact (genLoop_map_fst u1 u2 u3 (fun _ => 0) (fun _ => 0) (fun _ => 0)
      sOrc (fun _ => 0) ⟨2023, 3, 1⟩ 1000 ⟨2023, 1, 1⟩ 0 0).trans (by decide)
  · exact fun p hp =>
      genLoop_bounds u1 u2 u3 sOrc ⟨2023, 3, 1⟩ h1 h2 h3 h4 1000
        ⟨2023, 1, 1⟩ 0 p hp

/-- Witness for C10 with constant in-range oracle draws. -/
theorem generate_data_spec_witness :
    (generate_five_days_of_garmin_data (fun _ => 10) (fun _ => 50)
        (fun _ => 5) (fun _ => 30)).map Prod.fst = expected_keys ∧
    expected_keys.length = 60 ∧
    expected_keys.headD "" = "2023-01-01" ∧
    expected_keys.getLast? = some "2023-03-01" ∧
    expected_keys.Nodup ∧
    ∀ p ∈ generate_five_days_of_garmin_data (fun _ => 10) (fun _ => 50)
        (fun _ => 5) (fun _ => 30),
      (0 ≤ p.2.recovery_score ∧ p.2.recovery_score ≤ 72) ∧
      (0 ≤ p.2.body_battery ∧ p.2.body_battery ≤ 100) ∧
      (3 ≤ p.2.sleep_hours ∧ p.2.sleep_hours ≤ 9) ∧
      (0 ≤ p.2.stress_level ∧ p.2.stress_level ≤ 100) :=
  generate_data_spec (fun _ => 10) (fun _ => 50) (fun _ => 5) (fun _ => 30)
    (fun _ => ⟨by norm_num, by norm_num⟩)
    (fun _ => ⟨by norm_num, by norm_num⟩)
    (fun _ => ⟨by norm_num, by norm_num⟩)
    (fun _ => ⟨by norm_num, by norm_num⟩)

end Garmin
